import Mathlib

/-!
Verification of the pyworkCl insights client.

Shallow embedding of the numeric/formatting helpers (`src/lib/num.ts`),
the display helpers and bar renderers of the Insights screen
(`src/screens/InsightsScreen.tsx`, the module wired into `App.tsx`),
the alternate screen copy kept in the repository, and the fetch wrapper
(`request` in the api module).

Finite JavaScript numbers are modelled as exact rationals (ℚ); the
non-finite numbers NaN and ±Infinity are collapsed into a single
constructor, which is faithful here because every helper under study
inspects a number only through `Number.isFinite` before using it.
`Number(x)` coercion is modelled by `toNumber`; for strings and objects
the coercion result is carried on the constructor (we do not model the
full JS numeric literal grammar), with `none` standing for a non-finite
coercion result.
-/

namespace PyworkCl

/-- A JavaScript value as seen by the null-safe helpers: a finite number,
a non-finite number (NaN or ±Infinity), null, undefined, a string (with
its `Number(·)` coercion result attached), or an object (likewise). -/
inductive JSVal where
  | fin (q : ℚ)
  | nonfinite
  | nullV
  | undef
  | str (s : String) (coerced : Option ℚ)
  | obj (coerced : Option ℚ)
deriving DecidableEq, Repr

/-- Source: `Number(x)` followed by the `Number.isFinite` test: `some q` when the
coercion yields the finite number `q`, `none` when it yields NaN or
±Infinity. `Number(null) = 0`, `Number(undefined) = NaN`. -/
def toNumber : JSVal → Option ℚ
  | .fin q => some q
  | .nonfinite => none
  | .nullV => some 0
  | .undef => none
  | .str _ c => c
  | .obj c => c

/-- Source: `String(x)` as used for the news sample display; exact for the
constructors the screen feeds it (integers, strings, null, undefined). -/
def jsRawString : JSVal → String
  | .fin q => if q.den = 1 then toString q.num else toString q
  | .nonfinite => "NaN"
  | .nullV => "null"
  | .undef => "undefined"
  | .str s _ => s
  | .obj _ => "[object Object]"

/-- Left-pad a digit string with zeros to `d` characters, as `toFixed`
does for the fraction part. -/
def padZeros (s : String) (d : Nat) : String :=
  String.mk (List.replicate (d - s.length) '0') ++ s

/-- Source: `v.toFixed(d)` for a finite `v`: sign taken from `v`, then the
magnitude rounded to `d` fraction digits, half away from zero (for two
equally near candidates the ECMAScript spec picks the larger). -/
def toFixedString (q : ℚ) (d : Nat) : String :=
  let sgn : String := if q < 0 then "-" else ""
  let m : Nat := (⌊|q| * (10 : ℚ) ^ d + 1/2⌋).toNat
  if d = 0 then sgn ++ toString m
  else sgn ++ toString (m / 10 ^ d) ++ "." ++ padZeros (toString (m % 10 ^ d)) d

/-- Source: `fmt` from `src/lib/num.ts`: fixed-decimal string of the coerced
value, or the dash fallback when the coercion is not finite. (The
checked-in file shows the default dash as a double-encoded em dash;
every use below passes the dash explicitly or cannot reach it.) -/
def fmt (n : JSVal) (digits : Nat := 2) (dash : String := "—") : String :=
  match toNumber n with
  | some v => toFixedString v digits
  | none => dash

/-- Source: `pct` from `src/lib/num.ts`: clamp the coerced value to [0,1],
multiply by 100, render with `toFixed(0)` and append `%`; dash fallback
when the coercion is not finite. -/
def pct (n : JSVal) (dash : String := "—") : String :=
  match toNumber n with
  | none => dash
  | some v =>
    let clamped := max 0 (min 1 v)
    toFixedString (clamped * 100) 0 ++ "%"

/-- Source: `ratio01` from `src/lib/num.ts`: coerced value clamped to [0,1],
with 0 for a non-finite coercion. -/
def ratio01 (n : JSVal) : ℚ :=
  match toNumber n with
  | some v => max 0 (min 1 v)
  | none => 0

/-- Source: `num01` from `src/screens/InsightsScreen.tsx` (the screen's local
copy of the same clamp). -/
def num01 (x : JSVal) : ℚ :=
  match toNumber x with
  | some v => max 0 (min 1 v)
  | none => 0

/-- Source: `num` from `src/screens/InsightsScreen.tsx`: coerced value, with 0
for a non-finite coercion. -/
def num (x : JSVal) : ℚ :=
  match toNumber x with
  | some v => v
  | none => 0

/-- Source: `toNum` from `src/screens/InsightsScreen.tsx`: coerced value, with
NaN (here: `none`) for a non-finite coercion. -/
def toNum (x : JSVal) : Option ℚ :=
  match toNumber x with
  | some v => some v
  | none => none

/-- The tone tags used for colour-coding. -/
inductive Tone where
  | good | warn | neutral | muted
deriving DecidableEq, Repr

/-- Source: `pcTone` from `src/screens/InsightsScreen.tsx`: neutral for a
non-finite coercion, good strictly below 0.9, warn strictly above 1.1,
neutral otherwise. -/
def pcTone (ratio : JSVal) : Tone :=
  match toNumber ratio with
  | none => .neutral
  | some v => if v < 0.9 then .good else if v > 1.1 then .warn else .neutral

/-- Source: `ivTone` from `src/screens/InsightsScreen.tsx`. -/
def ivTone (r : ℚ) : Tone :=
  if r ≥ 60 then .warn else if r ≤ 20 then .good else .neutral

/-- The three flex-basis percentages of `BreadthBar` in
`src/screens/InsightsScreen.tsx`, in render order: advancer segment,
unchanged (remainder) segment, decliner segment. -/
structure BreadthShares where
  a : ℚ
  u : ℚ
  d : ℚ
deriving DecidableEq, Repr

/-- Source: `BreadthBar` from `src/screens/InsightsScreen.tsx`: total floored at
1, advancer and decliner shares as ratios of the total, unchanged share
as the remainder `100 - a - d` floored at 0. -/
def breadthShares (advancers decliners unchanged : ℚ) : BreadthShares :=
  let total := max 1 (advancers + decliners + unchanged)
  let a := advancers / total * 100
  let d := decliners / total * 100
  let u := max 0 (100 - a - d)
  ⟨a, u, d⟩

/-- Source: `BreadthBar` from the alternate screen copy in the repository: same
computation, but the remainder segment is not floored at 0. -/
def breadthSharesAlt (advancers decliners unchanged : ℚ) : BreadthShares :=
  let total := max 1 (advancers + decliners + unchanged)
  let a := advancers / total * 100
  let d := decliners / total * 100
  let u := 100 - a - d
  ⟨a, u, d⟩

/-- Source: `VolumeBar` from `src/screens/InsightsScreen.tsx`: denominator is
`max(1, total || up + down)` (`||` takes `up + down` when `total` is 0),
and each of the two segment percentages is independently clamped to
[0,100]. Returns (up-segment, down-segment). -/
def volumeShares (up down total : ℚ) : ℚ × ℚ :=
  let t := max 1 (if total = 0 then up + down else total)
  (max 0 (min 100 (up / t * 100)), max 0 (min 100 (down / t * 100)))

/-- The sample part of the News stat in `src/screens/InsightsScreen.tsx`:
`Number.isFinite(Number(ns?.sample)) ? String(ns?.sample) : "—"` — note
the raw value is stringified, not its numeric coercion. -/
def newsSampleText (sample : JSVal) : String :=
  match toNumber sample with
  | some _ => jsRawString sample
  | none => "—"

/-- Source: `newsString` from `src/screens/InsightsScreen.tsx`, applied to the
`score` and `sample` fields of the news-sentiment record: dash for a
non-finite score; otherwise a "+" only for a strictly positive
score, then the absolute value at two decimals, then the sample text in
parentheses. -/
def newsString (score sample : JSVal) : String :=
  match toNumber score with
  | none => "—"
  | some v =>
    let s := if v > 0 then "+" else ""
    s ++ fmt (.fin |v|) 2 ++ " (" ++ newsSampleText sample ++ ")"

/-- The integer that `pct` renders for a finite coerced value `v`: the
clamp of `v` to [0,1], times 100, rounded to the nearest integer (half
up, as `toFixed(0)` does for non-negative values). -/
def pctNat (v : ℚ) : ℕ :=
  (⌊max 0 (min 1 v) * 100 + 1/2⌋).toNat

/-! ### Payload records (the TS types of the screen, fields soft-typed) -/

/-- Source: `Summary.breadth` from the screen's type declarations. -/
structure Breadth where
  advancers : JSVal
  decliners : JSVal
  unchanged : JSVal
deriving Repr

/-- Source: `Summary.volume` from the screen's type declarations. -/
structure Volume where
  total : JSVal
  up : JSVal
  down : JSVal
deriving Repr

/-- Source: `Summary.trend` from the screen's type declarations. -/
structure Trend where
  bias : String
  strength : JSVal
deriving Repr

/-- The `Summary` payload record. -/
structure Summary where
  timeframe : String
  updated_at : String
  breadth : Breadth
  volume : Volume
  trend : Trend
  iv_rank : List (String × JSVal)
  note : Option String
deriving Repr

/-- The `news_sentiment` record of the `Sentiment` payload. -/
structure NewsRec where
  score : JSVal
  sample : JSVal
deriving Repr

/-- One `options_uoa` entry of the `Sentiment` payload. -/
structure UoaItem where
  symbol : String
  side : String
  ratio : JSVal
  note : Option String
deriving Repr

/-- The `Sentiment` payload record. -/
structure Sentiment where
  put_call_vol_ratio : JSVal
  put_call_oi_ratio : JSVal
  dark_pool_score : JSVal
  news_sentiment : Option NewsRec
  options_uoa : Option (List UoaItem)
deriving Repr

/-- One `patterns` entry of the `Patterns` payload. -/
structure PatternItem where
  symbol : String
  type : String
  confidence : JSVal
deriving Repr

/-- The `Patterns` payload record. -/
structure Patterns where
  timeframe : String
  patterns : Option (List PatternItem)
deriving Repr

/-! ### The screen's load orchestration -/

/-- The screen's local state: the three payloads, the loading flag and
the error banner text. -/
structure ScreenState where
  summary : Option Summary
  sentiment : Option Sentiment
  patterns : Option Patterns
  loading : Bool
  err : Option String
deriving Repr

/-- Source: `Promise.all` over the three fetches: resolves with the triple when
all three resolve, rejects with a rejection reason otherwise (the error
of the first rejected argument in argument order). A rejection reason is
an `Option String`: the thrown error's `message`, when it has one. -/
def promiseAll3 {α β γ : Type}
    (s : Except (Option String) α) (sen : Except (Option String) β)
    (p : Except (Option String) γ) : Except (Option String) (α × β × γ) :=
  match s, sen, p with
  | .ok s, .ok sen, .ok p => .ok (s, sen, p)
  | .error e, _, _ => .error e
  | _, .error e, _ => .error e
  | _, _, .error e => .error e

/-- Source: `load` from `src/screens/InsightsScreen.tsx` (the screen wired into
`App.tsx`), as a state transition on the settled result of the batched
fetch: clear the error, set loading; on success store the three
payloads; on failure set the banner text to `e?.message ?? "Failed to
load insights"` — the three stored payloads are NOT touched on this
path; finally clear loading. -/
def load (result : Except (Option String) (Summary × Sentiment × Patterns))
    (st : ScreenState) : ScreenState :=
  let st1 : ScreenState := { st with err := none, loading := true }
  match result with
  | .ok (s, sen, p) =>
    { st1 with summary := some s, sentiment := some sen, patterns := some p,
               loading := false }
  | .error e =>
    { st1 with err := some (e.getD "Failed to load insights"), loading := false }

/-- Source: `load` from the alternate screen copy kept in the repository: same,
except the failure path also resets all three stored payloads to null. -/
def loadAlt (result : Except (Option String) (Summary × Sentiment × Patterns))
    (st : ScreenState) : ScreenState :=
  let st1 : ScreenState := { st with err := none, loading := true }
  match result with
  | .ok (s, sen, p) =>
    { st1 with summary := some s, sentiment := some sen, patterns := some p,
               loading := false }
  | .error e =>
    { st1 with err := some (e.getD "Failed to load insights"),
               summary := none, sentiment := none, patterns := none,
               loading := false }

/-- A concrete summary payload, used for counterexample states. -/
def sampleSummary : Summary :=
  { timeframe := "daily", updated_at := "2025-01-01T00:00:00Z",
    breadth := ⟨.fin 120, .fin 80, .fin 0⟩,
    volume := ⟨.fin 100, .fin 60, .fin 40⟩,
    trend := ⟨"up", .fin (1/2)⟩,
    iv_rank := [("SPY", .fin 42)], note := none }

/-- A concrete sentiment payload, used for counterexample states. -/
def sampleSentiment : Sentiment :=
  { put_call_vol_ratio := .fin (85/100), put_call_oi_ratio := .fin 1,
    dark_pool_score := .fin (1/2),
    news_sentiment := some ⟨.fin (-(35/100)), .fin 5⟩,
    options_uoa := some [] }

/-- A concrete patterns payload, used for counterexample states. -/
def samplePatterns : Patterns :=
  { timeframe := "5m", patterns := some [] }

/-- A screen state holding previously fetched data and no error. -/
def loadedState : ScreenState :=
  { summary := some sampleSummary, sentiment := some sampleSentiment,
    patterns := some samplePatterns, loading := false, err := none }

/-! ### The fetch wrapper `request` of the api module -/

/-- How a single timed fetch can settle, as observed by `request`:
a response arrived (with its HTTP status, the body text — `none` when
`res.text()` itself rejects, which `request` replaces by `""` — and the
result of `res.json()`), or the abort fired (the 8-second timeout), or
`fetch` rejected with some other error. -/
inductive FetchOutcome where
  | response (status : Nat) (bodyText : Option String)
             (json : Except String String)
  | abort
  | failure (msg : String)
deriving Repr

/-- Source: `res.ok`: status in the inclusive range 200–299. -/
def resOk (status : Nat) : Bool :=
  200 ≤ status && status ≤ 299

/-- The error message `request` builds for a non-2xx response:
`` `HTTP ${res.status} on ${u.pathname}${u.search}${text ? ` — ${text.slice(0, 180)}` : ""}` ``. -/
def httpErrorMsg (status : Nat) (pathSearch : String) (text : String) : String :=
  "HTTP " ++ toString status ++ " on " ++ pathSearch ++
    (if text = "" then "" else " — " ++ text.take 180)

/-- What `request` produces: the settled outcome (parsed body or thrown
error message) and whether the timeout timer was cleared. -/
structure ReqResult where
  outcome : Except String String
  timerCleared : Bool
deriving Repr

/-- Source: `request` from the api module, over a settled fetch outcome: a non-ok
status throws the HTTP error message (body text defaulted to `""` when
unreadable); an ok status yields `res.json()`'s result, a parse failure
being re-thrown verbatim (its name is not `"AbortError"`); an abort is
translated to `"Request timed out"`; any other failure is re-thrown
verbatim; the `finally` clause clears the timer on every path. -/
def request (pathSearch : String) (o : FetchOutcome) : ReqResult :=
  let outcome : Except String String :=
    match o with
    | .response status bodyText json =>
      if resOk status then json
      else .error (httpErrorMsg status pathSearch (bodyText.getD ""))
    | .abort => .error "Request timed out"
    | .failure msg => .error msg
  ⟨outcome, true⟩

/-! ### Helper lemmas -/

lemma ne_of_data_mem {s t : String} {c : Char} (hs : c ∈ s.data)
    (ht : c ∉ t.data) : s ≠ t :=
  fun h => ht (h ▸ hs)

lemma str_empty_append (s : String) : "" ++ s = s :=
  String.ext (by rw [String.data_append]; rfl)

lemma append_percent_ne_dash (s : String) : s ++ "%" ≠ "—" := by
  apply ne_of_data_mem (c := '%')
  · rw [String.data_append]
    exact List.mem_append_right _ (by decide)
  · decide

lemma toFixedString_ne_dash (q : ℚ) (d : Nat) (hd : d ≠ 0) :
    toFixedString q d ≠ "—" := by
  apply ne_of_data_mem (c := '.')
  · simp only [toFixedString]
    rw [if_neg hd, String.data_append, String.data_append, String.data_append]
    exact List.mem_append_left _ (List.mem_append_right _ (by decide))
  · decide

lemma toFixedString_zero_digits (q : ℚ) (hq : 0 ≤ q) :
    toFixedString q 0 = toString (⌊q + 1/2⌋).toNat := by
  show (if q < 0 then "-" else "") ++ toString (⌊|q| * (10 : ℚ) ^ 0 + 1/2⌋).toNat
      = toString (⌊q + 1/2⌋).toNat
  rw [if_neg (not_lt.mpr hq), abs_of_nonneg hq, pow_zero, mul_one,
    str_empty_append]

lemma pct_eq_of_some {x : JSVal} {v : ℚ} (h : toNumber x = some v) :
    pct x "—" = toString (pctNat v) ++ "%" := by
  simp only [pct, h]
  rw [toFixedString_zero_digits _ (mul_nonneg (le_max_left _ _) (by norm_num))]
  rfl

lemma pctNat_le (v : ℚ) : pctNat v ≤ 100 := by
  have h1 : max 0 (min 1 v) ≤ 1 := max_le (by norm_num) (min_le_left _ _)
  have h2 : (⌊max 0 (min 1 v) * 100 + 1/2⌋ : ℤ) ≤ 100 := by
    have hle : max 0 (min 1 v) * 100 + 1/2 ≤ (201/2 : ℚ) := by nlinarith
    calc ⌊max 0 (min 1 v) * 100 + 1/2⌋ ≤ ⌊(201/2 : ℚ)⌋ := Int.floor_le_floor hle
    _ = 100 := by norm_num
  exact Int.toNat_le.mpr h2

/-! ### Claim theorems -/

/-- C2: for every input `x` (of any shape), `ratio01 x` — and the
screen's copy `num01 x` — lies in the closed interval [0,1]; when the
numeric coercion of `x` is finite it equals `clamp(x, 0, 1)`, and
otherwise it equals 0. -/
theorem ratio01_unitInterval (x : JSVal) :
    0 ≤ ratio01 x ∧ ratio01 x ≤ 1 ∧
    (∀ v : ℚ, toNumber x = some v → ratio01 x = max 0 (min 1 v)) ∧
    (toNumber x = none → ratio01 x = 0) ∧
    num01 x = ratio01 x := by
  refine ⟨?_, ?_, fun v hv => ?_, fun hn => ?_, rfl⟩
  · unfold ratio01
    cases toNumber x with
    | none => exact le_refl 0
    | some v => exact le_max_left _ _
  · unfold ratio01
    cases toNumber x with
    | none => norm_num
    | some v => exact max_le (by norm_num) (min_le_left _ _)
  · unfold ratio01
    rw [hv]
  · unfold ratio01
    rw [hn]

/-- Witness for C2 at the concrete input `2`. -/
theorem ratio01_unitInterval_witness :
    0 ≤ ratio01 (.fin 2) ∧ ratio01 (.fin 2) ≤ 1 ∧
    ratio01 (.fin 2) = max 0 (min 1 2) ∧ num01 (.fin 2) = ratio01 (.fin 2) := by
  obtain ⟨h1, h2, h3, _, h5⟩ := ratio01_unitInterval (.fin 2)
  exact ⟨h1, h2, h3 2 rfl, h5⟩

/-- C3: `pct x "—"` returns the dash exactly when the coercion of `x` is
not finite; otherwise it is the decimal rendering of an integer in
[0,100] — the coerced value clamped to [0,1], times 100, rounded to the
nearest integer — followed by `%`. -/
theorem pct_spec (x : JSVal) :
    (pct x "—" = "—" ↔ toNumber x = none) ∧
    (∀ v : ℚ, toNumber x = some v →
      pct x "—" = toString (pctNat v) ++ "%" ∧ pctNat v ≤ 100) := by
  cases h : toNumber x with
  | none =>
    have hp : pct x "—" = "—" := by simp only [pct, h]
    exact ⟨⟨fun _ => rfl, fun _ => hp⟩, fun v hv => Option.noConfusion hv⟩
  | some v =>
    refine ⟨⟨fun hcontra => ?_, fun hn => Option.noConfusion hn⟩,
      fun w hw => ?_⟩
    · rw [pct_eq_of_some h] at hcontra
      exact absurd hcontra (append_percent_ne_dash _)
    · injection hw with hvw
      subst hvw
      exact ⟨pct_eq_of_some h, pctNat_le _⟩

/-- Witness for C3 at the concrete input `1/2`. -/
theorem pct_spec_witness :
    (pct (.fin (1/2)) "—" = "—" ↔ toNumber (.fin (1/2)) = none) ∧
    (pct (.fin (1/2)) "—" = toString (pctNat (1/2)) ++ "%" ∧
      pctNat (1/2) ≤ 100) := by
  obtain ⟨h1, h2⟩ := pct_spec (.fin (1/2))
  exact ⟨h1, h2 (1/2) rfl⟩

lemma fmt_fin (q : ℚ) (d : Nat) (dash : String) :
    fmt (.fin q) d dash = toFixedString q d := rfl

lemma pcTone_fin (q : ℚ) :
    pcTone (.fin q) =
      if q < 0.9 then .good else if q > 1.1 then .warn else .neutral := rfl

lemma toFixedString_1236 : toFixedString 1.236 2 = "1.24" := by
  have hm : ⌊|(1.236 : ℚ)| * (10 : ℚ) ^ 2 + 1/2⌋ = 124 := by
    rw [abs_of_nonneg (by norm_num)]
    norm_num
  simp only [toFixedString]
  rw [if_neg (by decide : ¬ ((2 : Nat) = 0)),
    if_neg (by norm_num : ¬ ((1.236 : ℚ) < 0)), hm]
  decide

/-- C7: the put/call tone maps a finite coerced ratio strictly below 0.9
to good, strictly above 1.1 to warn, every other finite ratio (0.9, 1.0
and 1.1 included) to neutral, and a non-finite input to neutral; in
particular 0.85 is good, 1.15 is warn and 1.0 is neutral. -/
theorem pcTone_spec (x : JSVal) :
    (∀ v : ℚ, toNumber x = some v →
      ((v < 0.9 → pcTone x = .good) ∧
       (v > 1.1 → pcTone x = .warn) ∧
       (0.9 ≤ v → v ≤ 1.1 → pcTone x = .neutral))) ∧
    (toNumber x = none → pcTone x = .neutral) ∧
    pcTone (.fin 0.85) = .good ∧ pcTone (.fin 1.15) = .warn ∧
    pcTone (.fin 1) = .neutral ∧ pcTone (.fin 0.9) = .neutral ∧
    pcTone (.fin 1.1) = .neutral ∧ pcTone .nonfinite = .neutral := by
  refine ⟨fun v hv => ?_, fun hn => by simp only [pcTone, hn],
    by rw [pcTone_fin, if_pos (by norm_num)],
    by rw [pcTone_fin, if_neg (by norm_num), if_pos (by norm_num)],
    by rw [pcTone_fin, if_neg (by norm_num), if_neg (by norm_num)],
    by rw [pcTone_fin, if_neg (by norm_num), if_neg (by norm_num)],
    by rw [pcTone_fin, if_neg (by norm_num), if_neg (by norm_num)], rfl⟩
  have he : pcTone x =
      if v < 0.9 then .good else if v > 1.1 then .warn else .neutral := by
    simp only [pcTone, hv]
  exact ⟨fun h1 => by rw [he, if_pos h1],
    fun h2 => by
      rw [he, if_neg (not_lt.mpr (le_of_lt (lt_trans (by norm_num) h2))),
        if_pos h2],
    fun h3 h4 => by rw [he, if_neg (not_lt.mpr h3), if_neg (not_lt.mpr h4)]⟩

/-- Witness for C7 at the concrete inputs 0.85 and 1.15. -/
theorem pcTone_spec_witness :
    pcTone (.fin 0.85) = .good ∧ pcTone (.fin 1.15) = .warn ∧
    pcTone (.fin 1) = .neutral := by
  obtain ⟨hg, _, _, _, _⟩ := pcTone_spec (.fin 0.85)
  obtain ⟨hw, _⟩ := pcTone_spec (.fin 1.15)
  obtain ⟨hn, _⟩ := pcTone_spec (.fin 1)
  exact ⟨(hg 0.85 rfl).1 (by norm_num), (hw 1.15 rfl).2.1 (by norm_num),
    (hn 1 rfl).2.2 (by norm_num) (by norm_num)⟩

/-- C8: `fmt (num x) 2 "—"` never returns the dash fallback, because
`num` always yields a finite number (0 when `x` is unrepresentable). -/
theorem fmt_num_roundtrip (x : JSVal) :
    fmt (.fin (num x)) 2 "—" = toFixedString (num x) 2 ∧
    fmt (.fin (num x)) 2 "—" ≠ "—" := by
  refine ⟨rfl, ?_⟩
  rw [fmt_fin]
  exact toFixedString_ne_dash _ 2 (by decide)

/-- C9: `fmt x digits dash` is the fixed-decimal string of the coerced
value when finite, and the dash when not; in particular
`fmt 1.236 2 "—" = "1.24"` and `fmt "abc" 2 "—" = "—"`. -/
theorem fmt_spec (x : JSVal) (dash : String) :
    (∀ v : ℚ, toNumber x = some v → fmt x 2 dash = toFixedString v 2) ∧
    (toNumber x = none → fmt x 2 dash = dash) ∧
    fmt (.fin 1.236) 2 "—" = "1.24" ∧
    fmt (.str "abc" none) 2 "—" = "—" := by
  refine ⟨fun v hv => ?_, fun hn => ?_, ?_, rfl⟩
  · simp only [fmt, hv]
  · simp only [fmt, hn]
  · rw [fmt_fin]
    exact toFixedString_1236

/-- Witness for C9 at the concrete inputs `7` and NaN. -/
theorem fmt_spec_witness :
    fmt (.fin 7) 2 "—" = toFixedString 7 2 ∧ fmt .nonfinite 2 "—" = "—" := by
  obtain ⟨h1, _, _, _⟩ := fmt_spec (.fin 7) "—"
  obtain ⟨_, h2, _, _⟩ := fmt_spec .nonfinite "—"
  exact ⟨h1 7 rfl, h2 rfl⟩

/-- C4: for non-negative inputs the three breadth-bar segment shares sum
to exactly 100 — the middle segment is the remainder `100 - a - d` — in
both the wired screen's version (remainder floored at 0) and the
alternate copy's; and `{advancers: 120, decliners: 80, unchanged: 0}`
yields shares 60, 0, 40 (advancer, unchanged-remainder, decliner). -/
theorem breadthShares_sum (advancers decliners unchanged : ℚ)
    (ha : 0 ≤ advancers) (hd : 0 ≤ decliners) (hu : 0 ≤ unchanged) :
    (breadthShares advancers decliners unchanged).a +
      (breadthShares advancers decliners unchanged).u +
      (breadthShares advancers decliners unchanged).d = 100 ∧
    (breadthSharesAlt advancers decliners unchanged).a +
      (breadthSharesAlt advancers decliners unchanged).u +
      (breadthSharesAlt advancers decliners unchanged).d = 100 ∧
    (breadthShares 120 80 0).a = 60 ∧ (breadthShares 120 80 0).u = 0 ∧
    (breadthShares 120 80 0).d = 40 := by
  have h200 : max (1 : ℚ) (120 + 80 + 0) = 200 := by
    rw [max_eq_right (by norm_num : (1 : ℚ) ≤ 120 + 80 + 0)]
    norm_num
  refine ⟨?_, ?_, ?_, ?_, ?_⟩
  · simp only [breadthShares]
    set t := max 1 (advancers + decliners + unchanged) with htdef
    have ht : (0 : ℚ) < t := lt_of_lt_of_le one_pos (le_max_left _ _)
    have hle : advancers + decliners ≤ t := by
      refine le_trans ?_ (le_max_right _ _)
      linarith
    have hAD : advancers / t * 100 + decliners / t * 100 ≤ 100 := by
      have h1 : (advancers + decliners) / t ≤ 1 := (div_le_one ht).mpr hle
      have h2 : advancers / t * 100 + decliners / t * 100
          = (advancers + decliners) / t * 100 := by ring
      rw [h2]
      nlinarith
    rw [max_eq_right (by linarith)]
    ring
  · simp only [breadthSharesAlt]
    ring
  · simp only [breadthShares, h200]
    norm_num
  · simp only [breadthShares, h200]
    norm_num [max_self]
  · simp only [breadthShares, h200]
    norm_num

/-- Witness for C4 at the concrete input (120, 80, 0). -/
theorem breadthShares_sum_witness :
    (breadthShares 120 80 0).a + (breadthShares 120 80 0).u +
      (breadthShares 120 80 0).d = 100 ∧
    (breadthSharesAlt 120 80 0).a + (breadthSharesAlt 120 80 0).u +
      (breadthSharesAlt 120 80 0).d = 100 ∧
    (breadthShares 120 80 0).a = 60 := by
  obtain ⟨h1, h2, h3, _, _⟩ :=
    breadthShares_sum 120 80 0 (by norm_num) (by norm_num) (by norm_num)
  exact ⟨h1, h2, h3⟩

/-- C5: each volume-bar segment percentage is independently clamped into
[0,100], and no remainder reconciliation is applied: the two percentages
can sum to less than 100 (up 10, down 10, total 100) and to more than
100 (up 200, down 200, total 100). -/
theorem volumeShares_spec (up down total : ℚ) :
    (0 ≤ (volumeShares up down total).1 ∧
      (volumeShares up down total).1 ≤ 100 ∧
     0 ≤ (volumeShares up down total).2 ∧
      (volumeShares up down total).2 ≤ 100) ∧
    (volumeShares 10 10 100).1 + (volumeShares 10 10 100).2 < 100 ∧
    100 < (volumeShares 200 200 100).1 + (volumeShares 200 200 100).2 := by
  have e1 : (volumeShares 10 10 100).1 = 10 := by
    simp only [volumeShares]
    rw [if_neg (by norm_num : ¬ ((100 : ℚ) = 0)),
      max_eq_right (by norm_num : (1 : ℚ) ≤ 100),
      min_eq_right (by norm_num : (10 : ℚ) / 100 * 100 ≤ 100),
      max_eq_right (by norm_num : (0 : ℚ) ≤ 10 / 100 * 100)]
    norm_num
  have e2 : (volumeShares 10 10 100).2 = 10 := by
    simp only [volumeShares]
    rw [if_neg (by norm_num : ¬ ((100 : ℚ) = 0)),
      max_eq_right (by norm_num : (1 : ℚ) ≤ 100),
      min_eq_right (by norm_num : (10 : ℚ) / 100 * 100 ≤ 100),
      max_eq_right (by norm_num : (0 : ℚ) ≤ 10 / 100 * 100)]
    norm_num
  have e3 : (volumeShares 200 200 100).1 = 100 := by
    simp only [volumeShares]
    rw [if_neg (by norm_num : ¬ ((100 : ℚ) = 0)),
      max_eq_right (by norm_num : (1 : ℚ) ≤ 100),
      min_eq_left (by norm_num : (100 : ℚ) ≤ 200 / 100 * 100),
      max_eq_right (by norm_num : (0 : ℚ) ≤ 100)]
  have e4 : (volumeShares 200 200 100).2 = 100 := by
    simp only [volumeShares]
    rw [if_neg (by norm_num : ¬ ((100 : ℚ) = 0)),
      max_eq_right (by norm_num : (1 : ℚ) ≤ 100),
      min_eq_left (by norm_num : (100 : ℚ) ≤ 200 / 100 * 100),
      max_eq_right (by norm_num : (0 : ℚ) ≤ 100)]
  refine ⟨⟨le_max_left _ _, max_le (by norm_num) (min_le_left _ _),
    le_max_left _ _, max_le (by norm_num) (min_le_left _ _)⟩, ?_, ?_⟩
  · rw [e1, e2]
    norm_num
  · rw [e3, e4]
    norm_num

/-- C6: an aborted request yields exactly "Request timed out"; a non-2xx
response yields an error whose message contains the numeric status and
the first 180 characters of the body; a transport error and a JSON parse
error are re-thrown verbatim; and the timer is cleared on every path. -/
theorem request_spec (ps : String) (o : FetchOutcome) (se so : Nat)
    (body : Option String) (json : Except String String) (m msg : String) :
    request ps .abort = ⟨.error "Request timed out", true⟩ ∧
    (resOk se = false →
      (request ps (.response se body json)).outcome =
        .error (httpErrorMsg se ps (body.getD "")) ∧
      (∃ p q : List Char, (httpErrorMsg se ps (body.getD "")).data =
        p ++ (toString se).data ++ q) ∧
      (body.getD "" ≠ "" → ∃ p : List Char,
        (httpErrorMsg se ps (body.getD "")).data =
          p ++ ((body.getD "").take 180).data)) ∧
    request ps (.failure msg) = ⟨.error msg, true⟩ ∧
    (resOk so = true →
      request ps (.response so body (.error m)) = ⟨.error m, true⟩) ∧
    (request ps o).timerCleared = true := by
  refine ⟨rfl, fun hse => ⟨?_, ?_, fun hb => ?_⟩, rfl, fun hso => ?_, ?_⟩
  · have hc : ¬ (resOk se = true) := by rw [hse]; exact Bool.false_ne_true
    simp only [request]
    rw [if_neg hc]
  · refine ⟨"HTTP ".data, " on ".data ++ ps.data ++
      (if body.getD "" = "" then ""
       else " — " ++ (body.getD "").take 180).data, ?_⟩
    simp only [httpErrorMsg, String.data_append]
    simp [List.append_assoc]
  · simp only [httpErrorMsg, if_neg hb]
    refine ⟨"HTTP ".data ++ (toString se).data ++ " on ".data ++ ps.data ++
      " — ".data, ?_⟩
    simp only [String.data_append]
    simp [List.append_assoc]
  · simp only [request]
    rw [if_pos hso]
  · cases o <;> rfl

/-- Witness for C6: a 404 with body "nope", an abort, a transport error
and a parse failure on a 200. -/
theorem request_spec_witness :
    request "/api/insights/summary" .abort =
      ⟨.error "Request timed out", true⟩ ∧
    (request "/api/insights/summary" (.response 404 (some "nope") (.ok "x"))
      ).outcome =
      .error (httpErrorMsg 404 "/api/insights/summary" "nope") ∧
    (∃ p q : List Char, (httpErrorMsg 404 "/api/insights/summary" "nope").data
      = p ++ (toString 404).data ++ q) ∧
    (∃ p : List Char, (httpErrorMsg 404 "/api/insights/summary" "nope").data
      = p ++ (("nope" : String).take 180).data) ∧
    request "/api/insights/summary" (.failure "Network request failed") =
      ⟨.error "Network request failed", true⟩ ∧
    request "/api/insights/summary" (.response 200 (some "nope")
      (.error "Unexpected token")) = ⟨.error "Unexpected token", true⟩ := by
  obtain ⟨h1, h2, h3, h4, _⟩ := request_spec "/api/insights/summary" .abort
    404 200 (some "nope") (.ok "x") "Unexpected token" "Network request failed"
  obtain ⟨h2a, h2b, h2c⟩ := h2 rfl
  exact ⟨h1, h2a, h2b, h2c (by decide), h3, h4 rfl⟩

/-- C10: for a finite news score the News text is the absolute value of
the score prefixed by "+" exactly when the score is strictly positive
and by nothing otherwise; a negative score (such as -0.35) is shown
without any minus sign, with the same empty prefix a score of 0 gets. -/
theorem newsString_spec (score sample : JSVal) :
    (∀ v : ℚ, toNumber score = some v →
      newsString score sample =
        (if v > 0 then "+" else "") ++ toFixedString |v| 2 ++ " (" ++
          newsSampleText sample ++ ")") ∧
    (toNumber score = none → newsString score sample = "—") ∧
    newsString (.fin (-0.35)) (.fin 5) = "0.35 (5)" ∧
    newsString (.fin 0) (.fin 5) = "0.00 (5)" ∧
    '-' ∉ (newsString (.fin (-0.35)) (.fin 5)).data ∧
    (if (-0.35 : ℚ) > 0 then "+" else "") =
      (if (0 : ℚ) > 0 then "+" else "") := by
  have habs : |(-0.35 : ℚ)| = 0.35 := by
    rw [abs_of_nonpos (by norm_num)]
    norm_num
  have h35 : toFixedString (0.35 : ℚ) 2 = "0.35" := by
    have hm : ⌊|(0.35 : ℚ)| * (10 : ℚ) ^ 2 + 1/2⌋ = 35 := by
      rw [abs_of_nonneg (by norm_num)]
      norm_num
    simp only [toFixedString]
    rw [if_neg (by decide : ¬ ((2 : Nat) = 0)),
      if_neg (by norm_num : ¬ ((0.35 : ℚ) < 0)), hm]
    decide
  have h00 : toFixedString (0 : ℚ) 2 = "0.00" := by
    have hm : ⌊|(0 : ℚ)| * (10 : ℚ) ^ 2 + 1/2⌋ = 0 := by
      rw [abs_of_nonneg (by norm_num)]
      norm_num
    simp only [toFixedString]
    rw [if_neg (by decide : ¬ ((2 : Nat) = 0)),
      if_neg (by norm_num : ¬ ((0 : ℚ) < 0)), hm]
    decide
  have hneg : newsString (.fin (-0.35)) (.fin 5) = "0.35 (5)" := by
    simp only [newsString, toNumber]
    rw [if_neg (by norm_num : ¬ ((-0.35 : ℚ) > 0)), fmt_fin, habs, h35]
    have hs : newsSampleText (.fin 5) = "5" := rfl
    rw [hs]
    decide
  have hzero : newsString (.fin 0) (.fin 5) = "0.00 (5)" := by
    simp only [newsString, toNumber]
    rw [if_neg (by norm_num : ¬ ((0 : ℚ) > 0)), fmt_fin,
      (by norm_num : |(0 : ℚ)| = 0), h00]
    have hs : newsSampleText (.fin 5) = "5" := rfl
    rw [hs]
    decide
  refine ⟨fun v hv => ?_, fun hn => by simp only [newsString, hn], hneg, hzero,
    by rw [hneg]; decide,
    by rw [if_neg (by norm_num : ¬ ((-0.35 : ℚ) > 0)),
      if_neg (by norm_num : ¬ ((0 : ℚ) > 0))]⟩
  simp only [newsString, hv]
  rw [fmt_fin]

/-- Witness for C10 at score 2 and at an undefined score. -/
theorem newsString_spec_witness :
    newsString (.fin 2) .nonfinite =
      (if (2 : ℚ) > 0 then "+" else "") ++ toFixedString |(2 : ℚ)| 2 ++
        " (" ++ newsSampleText .nonfinite ++ ")" ∧
    newsString .undef (.fin 5) = "—" := by
  obtain ⟨h1, _, _⟩ := newsString_spec (.fin 2) .nonfinite
  obtain ⟨_, h2, _⟩ := newsString_spec .undef (.fin 5)
  exact ⟨h1 2 rfl, h2 rfl⟩

/-- C1 counterexample: after a failed load the wired screen keeps the
previously fetched payloads — starting from a state holding data, an
error leaves all three in place next to the error banner, refuting that
they are set to null. -/
theorem load_error_keeps_data :
    (load (.error (some "Request timed out")) loadedState).err =
      some "Request timed out" ∧
    (load (.error (some "Request timed out")) loadedState).summary =
      some sampleSummary ∧
    (load (.error (some "Request timed out")) loadedState).sentiment =
      some sampleSentiment ∧
    (load (.error (some "Request timed out")) loadedState).patterns =
      some samplePatterns ∧
    (load (.error (some "Request timed out")) loadedState).summary ≠ none := by
  refine ⟨rfl, rfl, rfl, rfl, fun h => Option.noConfusion h⟩

/-- C1 amended: any single fetch failure fails the whole batch; on that
error the wired screen (`src/src/screens/InsightsScreen.tsx`) sets the
banner text but leaves summary, sentiment and patterns unchanged, while
the repository's alternate screen copy clears all three to null. -/
theorem load_error_amended (st : ScreenState) (e : Option String)
    (s : Except (Option String) Summary)
    (sen : Except (Option String) Sentiment)
    (p : Except (Option String) Patterns) (msg : Option String) :
    (s = .error msg → ∃ m, promiseAll3 s sen p = .error m) ∧
    (sen = .error msg → ∃ m, promiseAll3 s sen p = .error m) ∧
    (p = .error msg → ∃ m, promiseAll3 s sen p = .error m) ∧
    ((load (.error e) st).err = some (e.getD "Failed to load insights") ∧
     (load (.error e) st).summary = st.summary ∧
     (load (.error e) st).sentiment = st.sentiment ∧
     (load (.error e) st).patterns = st.patterns ∧
     (load (.error e) st).loading = false) ∧
    ((loadAlt (.error e) st).err = some (e.getD "Failed to load insights") ∧
     (loadAlt (.error e) st).summary = none ∧
     (loadAlt (.error e) st).sentiment = none ∧
     (loadAlt (.error e) st).patterns = none ∧
     (loadAlt (.error e) st).loading = false) := by
  refine ⟨fun hs => ?_, fun hsen => ?_, fun hp => ?_,
    ⟨rfl, rfl, rfl, rfl, rfl⟩, ⟨rfl, rfl, rfl, rfl, rfl⟩⟩
  · subst hs
    cases sen with
    | ok b =>
      cases p with
      | ok c => exact ⟨msg, rfl⟩
      | error c => exact ⟨msg, rfl⟩
    | error b =>
      cases p with
      | ok c => exact ⟨msg, rfl⟩
      | error c => exact ⟨msg, rfl⟩
  · subst hsen
    cases s with
    | ok a =>
      cases p with
      | ok c => exact ⟨msg, rfl⟩
      | error c => exact ⟨msg, rfl⟩
    | error a =>
      cases p with
      | ok c => exact ⟨a, rfl⟩
      | error c => exact ⟨a, rfl⟩
  · subst hp
    cases s with
    | ok a =>
      cases sen with
      | ok b => exact ⟨msg, rfl⟩
      | error b => exact ⟨b, rfl⟩
    | error a =>
      cases sen with
      | ok b => exact ⟨a, rfl⟩
      | error b => exact ⟨a, rfl⟩

/-- Witness for C1's amended statement at concrete inputs. -/
theorem load_error_amended_witness :
    (∃ m, promiseAll3 (.error (some "HTTP 500 on /api/insights/summary"))
        (.ok sampleSentiment) (.ok samplePatterns) =
      (.error m : Except (Option String) (Summary × Sentiment × Patterns))) ∧
    (load (.error (some "boom")) loadedState).summary = loadedState.summary ∧
    (loadAlt (.error (some "boom")) loadedState).summary = none := by
  obtain ⟨h1, _, _, h4, h5⟩ := load_error_amended loadedState (some "boom")
    (.error (some "HTTP 500 on /api/insights/summary")) (.ok sampleSentiment)
    (.ok samplePatterns) (some "HTTP 500 on /api/insights/summary")
  exact ⟨h1 rfl, h4.2.1, h5.2.1⟩

end PyworkCl
